import Mathlib

/-!
Verification of the hng-wallet service (FastAPI/SQLAlchemy wallet ledger).

Shallow embedding of the repository's core operations:
  * `src/app/routers/wallet.py`   — deposit initiation, Paystack webhook
    reconciliation, transfers, history;
  * `src/app/auth_deps.py`        — the permission gate `require_permissions`;
  * `src/app/routers/api_keys.py` — API-key create / rollover / revoke;
  * `src/app/utils.py`            — `parse_expiry`;
  * `src/app/routers/google_auth.py` and `src/app/models.py` — identity
    resolution and wallet provisioning.

Database rows are modelled as Lean structures held in lists; SQLAlchemy's
`.scalars().first()` becomes `List.find?`, and in-place ORM mutation of a row
becomes a `List.map` keyed on the row's primary key (primary keys are unique,
so at most one element matches; theorems that need this uniqueness carry an
explicit `Nodup` hypothesis on the key column).  Monetary amounts are
unbounded integers (Python ints are unbounded; the spec excludes storage
mechanics).  `datetime` values are modelled as integer UTC seconds; a
`timedelta(hours = n)` is `n * 3600` seconds, and `timedelta(days = n)` is
`n * 86400` seconds.  Handlers return `State × Except ApiErr Resp`: every
`raise HTTPException` before a commit leaves the state component equal to the
input state.
-/

deriving instance DecidableEq for Except

/-- Error taxonomy: one constructor per `raise HTTPException` site relevant to
the verified operations (the HTTP status code of each site is noted). -/
inductive ApiErr where
  /-- 404 — sender/user wallet not found. -/
  | walletNotFound : ApiErr
  /-- 400 — `Insufficient balance` in `transfer_funds`. -/
  | insufficientBalance : ApiErr
  /-- 404 — recipient wallet not found in `transfer_funds`. -/
  | recipientNotFound : ApiErr
  /-- 400 — self-transfer forbidden in `transfer_funds`. -/
  | selfTransfer : ApiErr
  /-- 400 — missing `data.reference` in the webhook payload. -/
  | missingReference : ApiErr
  /-- 402/500 — Paystack-side failure during deposit initiation (models the
  unconfigured-key, HTTP-error and declined-initialisation branches, each of
  which raises before the transaction row is created). -/
  | paymentFailed : ApiErr
  /-- 403 — inactive account in `create_api_key`. -/
  | inactiveAccount : ApiErr
  /-- 400 — `Maximum of 5 active API keys allowed` in create/rollover. -/
  | quotaExceeded : ApiErr
  /-- 404 — API key not found / not owned in revoke/rollover. -/
  | keyNotFound : ApiErr
  /-- 400 — `API key is already revoked`. -/
  | alreadyRevoked : ApiErr
  /-- 400 — `Invalid expiry format` in `parse_expiry` (too short, magnitude
  unparsable, or magnitude not positive). -/
  | invalidExpiry : ApiErr
  /-- 400 — `Invalid expiry unit` in `parse_expiry`. -/
  | invalidExpiryUnit : ApiErr
  /-- 403 — `API key missing required permissions: ...`; carries the list of
  missing permissions reported in the detail string. -/
  | forbiddenMissing (missing : List String) : ApiErr
  /-- 500 — `Database error handling user` in `google_callback` (the
  `except Exception` handler; in particular a unique-constraint violation on
  `wallet_number` at the wallet commit). -/
  | databaseError : ApiErr
deriving Repr, DecidableEq

/-- Row of table `wallets` (`src/app/models.py`, class `Wallet`). -/
structure Wallet where
  id : Nat
  user_id : Nat
  wallet_number : String
  balance : Int
deriving Repr, DecidableEq

/-- Row of table `paystack_transactions` (`src/app/models.py`,
class `Transaction`). -/
structure Txn where
  reference : String
  user_id : Nat
  wallet_id : Option Nat
  amount : Int
  transaction_type : String
  status : String
  recipient_wallet_id : Option Nat
  paid_at : Option Int
deriving Repr, DecidableEq

/-- Row of table `google_users` (`src/app/models.py`, class `User`). -/
structure User where
  id : Nat
  email : String
  name : String
  picture : String
  google_id : Option String
  is_active : Bool
deriving Repr, DecidableEq

/-- Row of table `api_keys` (`src/app/models.py`, class `APIKey`).  The
`key_hash` (SHA-256 of the raw secret) and `key_prefix` display fields are
cryptographic bookkeeping not used by any verified operation and are omitted. -/
structure APIKey where
  id : Nat
  name : String
  owner_id : Nat
  /-- JSON column `permissions`.  `none` models a non-list JSON value (the
  gate's `isinstance(api_key.permissions, list)` check coerces it to `[]`). -/
  permissions : Option (List String)
  expires_at : Option Int
  is_active : Bool
deriving Repr, DecidableEq

/-- The ledger portion of the database: the `wallets` and
`paystack_transactions` tables. -/
structure LedgerState where
  wallets : List Wallet
  txns : List Txn
deriving Repr, DecidableEq

/-- `select(Wallet).where(Wallet.user_id == uid)` + `.scalars().first()`. -/
def findWalletByUser (ws : List Wallet) (uid : Nat) : Option Wallet :=
  ws.find? (fun w => w.user_id == uid)

/-- `select(Wallet).where(Wallet.id == i)` + `.scalars().first()`. -/
def findWalletById (ws : List Wallet) (i : Nat) : Option Wallet :=
  ws.find? (fun w => w.id == i)

/-- `select(Wallet).where(Wallet.wallet_number == n)` + `.scalars().first()`. -/
def findWalletByNumber (ws : List Wallet) (n : String) : Option Wallet :=
  ws.find? (fun w => w.wallet_number == n)

/-- `select(Transaction).where(Transaction.reference == r)` +
`.scalars().first()`. -/
def findTxnByRef (ts : List Txn) (r : String) : Option Txn :=
  ts.find? (fun t => t.reference == r)

/-- Lookup of the wallet referenced by a transaction's nullable `wallet_id`
(`select(Wallet).where(Wallet.id == transaction.wallet_id)`; a SQL comparison
with NULL matches no row). -/
def findWalletOpt (ws : List Wallet) (oid : Option Nat) : Option Wallet :=
  oid.bind (fun wid => findWalletById ws wid)

/-- Schema `WalletTransferRequest` (`src/app/schemas.py`): 13-character
`wallet_number`, integer `amount` with `ge=100` enforced by pydantic before
the handler runs. -/
structure WalletTransferRequest where
  wallet_number : String
  amount : Int
deriving Repr, DecidableEq

/-- The pydantic validation of `WalletTransferRequest`
(`min_length=13, max_length=13` and `ge=100`). -/
def WalletTransferRequest.valid (r : WalletTransferRequest) : Bool :=
  r.wallet_number.length == 13 && 100 ≤ r.amount

/-- `data` part of the JSON returned by `transfer_funds` on success. -/
structure TransferData where
  reference : String
  amount : Int
  recipient_wallet_number : String
deriving Repr, DecidableEq

/-- Schema `WebhookResponse`. -/
structure WebhookResponse where
  status : Bool
deriving Repr, DecidableEq

/-- Schema `PaymentInitiateResponse` (the `authorization_url` comes from the
external gateway and is not modelled). -/
structure PaymentInitiateResponse where
  reference : String
deriving Repr, DecidableEq

/-- `POST /wallet/deposit` — `initiate_deposit` in
`src/app/routers/wallet.py`.  `uid` is the authenticated user's id,
`amountKobo` the pydantic-converted amount in kobo, `ref` the generated
`txn_<hex>` reference, and `paystackOk` abstracts the outcome of the external
Paystack initialize call (`False` covers the unconfigured-credentials and
gateway-failure branches, all of which raise before the transaction row is
created). -/
def initiate_deposit (s : LedgerState) (uid : Nat) (amountKobo : Int)
    (ref : String) (paystackOk : Bool) :
    LedgerState × Except ApiErr PaymentInitiateResponse :=
  match findWalletByUser s.wallets uid with
  | none => (s, .error .walletNotFound)
  | some wallet =>
    if !paystackOk then (s, .error .paymentFailed)
    else
      let txn : Txn :=
        { reference := ref
          user_id := uid
          wallet_id := some wallet.id
          amount := amountKobo
          transaction_type := "deposit"
          status := "pending"
          recipient_wallet_id := none
          paid_at := none }
      ({ s with txns := s.txns ++ [txn] }, .ok { reference := ref })

/-- `transaction.paid_at` assignment in the webhook's `charge.success`
branch: `data.get("paid_at")` absent (`none`) or unparseable (`some none`)
falls back to `datetime.utcnow()`; a parseable ISO timestamp
(`some (some t)`) is stored as given. -/
def compute_paid_at (field : Option (Option Int)) (now : Int) : Option Int :=
  match field with
  | some (some t) => some t
  | some none => some now
  | none => some now

/-- The ORM mutation `wallet.balance += transaction.amount` applied to the
row whose primary key equals the transaction's `wallet_id`. -/
def credit_wallet (wid : Option Nat) (amount : Int) (w : Wallet) : Wallet :=
  if some w.id == wid then { w with balance := w.balance + amount } else w

/-- The ORM mutations `transaction.status = "success"` and
`transaction.paid_at = ...` applied to the row with the given reference. -/
def mark_success (ref : String) (pa : Option Int) (t : Txn) : Txn :=
  if t.reference == ref then { t with status := "success", paid_at := pa }
  else t

/-- The ORM mutation `transaction.status = "failed"` applied to the row with
the given reference. -/
def mark_failed (ref : String) (t : Txn) : Txn :=
  if t.reference == ref then { t with status := "failed" } else t

/-- The paired ORM mutations `sender_wallet.balance -= amount` and
`recipient_wallet.balance += amount`, keyed by the two distinct primary
keys. -/
def transfer_update (senderId recipientId : Nat) (amount : Int)
    (w : Wallet) : Wallet :=
  if w.id == senderId then { w with balance := w.balance - amount }
  else if w.id == recipientId then { w with balance := w.balance + amount }
  else w

/-- `POST /wallet/paystack/webhook` — `paystack_webhook` in
`src/app/routers/wallet.py`, from the point where the signature has been
verified and the JSON body parsed (the signature and JSON guards raise 400
before any database access).  `reference` is `data.get("reference")`
(`none` = absent), `paid_at_field` is `data.get("paid_at")` as in
`compute_paid_at`. -/
def paystack_webhook (s : LedgerState) (event : String)
    (reference : Option String) (paid_at_field : Option (Option Int))
    (now : Int) : LedgerState × Except ApiErr WebhookResponse :=
  match reference with
  | none => (s, .error .missingReference)
  | some ref =>
    match findTxnByRef s.txns ref with
    | none => (s, .ok { status := true })
    | some txn =>
      if txn.status == "success" then (s, .ok { status := true })
      else
        let s' :=
          if event == "charge.success" then
            match findWalletOpt s.wallets txn.wallet_id with
            | none => s
            | some _ =>
              { wallets := s.wallets.map
                  (credit_wallet txn.wallet_id txn.amount),
                txns := s.txns.map
                  (mark_success ref (compute_paid_at paid_at_field now)) }
          else if event == "charge.failed" then
            { s with txns := s.txns.map (mark_failed ref) }
          else s
        (s', .ok { status := true })

/-- `POST /wallet/transfer` — `transfer_funds` in
`src/app/routers/wallet.py`.  `ref` is the generated reference and `now`
models `datetime.utcnow()`. -/
def transfer_funds (s : LedgerState) (uid : Nat)
    (req : WalletTransferRequest) (ref : String) (now : Int) :
    LedgerState × Except ApiErr TransferData :=
  match findWalletByUser s.wallets uid with
  | none => (s, .error .walletNotFound)
  | some sender_wallet =>
    if sender_wallet.balance < req.amount then
      (s, .error .insufficientBalance)
    else
      match findWalletByNumber s.wallets req.wallet_number with
      | none => (s, .error .recipientNotFound)
      | some recipient_wallet =>
        if sender_wallet.id == recipient_wallet.id then
          (s, .error .selfTransfer)
        else
          let ws' := s.wallets.map
            (transfer_update sender_wallet.id recipient_wallet.id req.amount)
          let txn : Txn :=
            { reference := ref
              user_id := uid
              wallet_id := some sender_wallet.id
              amount := req.amount
              transaction_type := "transfer"
              status := "success"
              recipient_wallet_id := some recipient_wallet.id
              paid_at := some now }
          ({ wallets := ws', txns := s.txns ++ [txn] },
           .ok { reference := ref
                 amount := req.amount
                 recipient_wallet_number := req.wallet_number })

/-! ### `parse_expiry` (`src/app/utils.py`) and Python `int()` semantics -/

/-- The six ASCII whitespace characters stripped by Python's `int()`
(space, tab, newline, carriage return, vertical tab, form feed). -/
def isPySpace (c : Char) : Bool :=
  c == ' ' || c == '\t' || c == '\n' || c == '\r' || c == '\x0b' || c == '\x0c'

/-- ASCII decimal digit test. -/
def isDigitCh (c : Char) : Bool :=
  48 ≤ c.toNat && c.toNat ≤ 57

/-- Numeric value of an ASCII digit. -/
def digitVal (c : Char) : Nat :=
  c.toNat - 48

/-- Digits after the first one, per the Python integer-literal grammar
accepted by `int()`: a single underscore may stand between two digits. -/
def pyDigitsRest : List Char → Nat → Option Nat
  | [], acc => some acc
  | c :: cs, acc =>
    if c == '_' then
      match cs with
      | c2 :: cs2 =>
        if isDigitCh c2 then pyDigitsRest cs2 (acc * 10 + digitVal c2)
        else none
      | [] => none
    else if isDigitCh c then pyDigitsRest cs (acc * 10 + digitVal c)
    else none

/-- Unsigned part of `int()`: a nonempty digit sequence, underscores allowed
only between digits. -/
def pyDigitsVal : List Char → Option Nat
  | [] => none
  | c :: cs => if isDigitCh c then pyDigitsRest cs (digitVal c) else none

/-- Leading/trailing whitespace stripping performed by `int()`. -/
def pyTrim (cs : List Char) : List Char :=
  ((cs.dropWhile isPySpace).reverse.dropWhile isPySpace).reverse

/-- Python's `int(str)` on the characters of the string (ASCII fragment):
strips surrounding whitespace, accepts one optional sign, then a digit
sequence with optional single underscores between digits; `none` models a
raised `ValueError`. -/
def pyIntL (cs : List Char) : Option Int :=
  match pyTrim cs with
  | '+' :: rest => (pyDigitsVal rest).map (fun n => (n : Int))
  | '-' :: rest => (pyDigitsVal rest).map (fun n => -(n : Int))
  | rest => (pyDigitsVal rest).map (fun n => (n : Int))

/-- `parse_expiry` (`src/app/utils.py`): rejects strings of length `< 2`,
splits off the final character as the unit (upper-cased, so the unit is
case-insensitive), parses the remainder with `int()`, rejects non-positive
magnitudes, and adds the shorthand duration to `now` (hours, days, 30-day
months, 365-day years); an unrecognised unit raises 400. -/
def parse_expiry (expiry_str : String) (now : Int) : Except ApiErr Int :=
  let cs := expiry_str.toList
  if cs.length < 2 then .error .invalidExpiry
  else
    match pyIntL cs.dropLast with
    | none => .error .invalidExpiry
    | some num =>
      if num ≤ 0 then .error .invalidExpiry
      else
        let unit := (cs.getLast?.getD ' ').toUpper
        if unit == 'H' then .ok (now + num * 3600)
        else if unit == 'D' then .ok (now + num * 86400)
        else if unit == 'M' then .ok (now + num * 30 * 86400)
        else if unit == 'Y' then .ok (now + num * 365 * 86400)
        else .error .invalidExpiryUnit

/-! ### Permission gate (`src/app/auth_deps.py`) -/

/-- `require_permissions` (`src/app/auth_deps.py`): the inner
`permission_checker` after authentication has resolved the principal.
`api_key = none` is the JWT path (always authorized); with an API key the
gate computes the missing permissions and raises 403 listing them when any
are missing. -/
def require_permissions (required_permissions : List String)
    (api_key : Option APIKey) : Except ApiErr Unit :=
  match api_key with
  | none => .ok ()
  | some k =>
    let api_key_permissions := k.permissions.getD []
    let missing_permissions := required_permissions.filter
      (fun perm => !api_key_permissions.contains perm)
    if !missing_permissions.isEmpty then
      .error (.forbiddenMissing missing_permissions)
    else .ok ()

/-! ### API key lifecycle (`src/app/routers/api_keys.py`) -/

/-- Schema `APIKeyCreate` (`src/app/schemas.py`); `permissions` is the
post-validation list. -/
structure APIKeyCreate where
  name : String
  permissions : List String
  expiry : String
deriving Repr, DecidableEq

/-- The pydantic validation of `APIKeyCreate.permissions`: nonempty and
drawn from the fixed enum. -/
def APIKeyCreate.validPerms (k : APIKeyCreate) : Bool :=
  !k.permissions.isEmpty &&
    k.permissions.all (fun p => p ∈ ["deposit", "transfer", "read"])

/-- Schema `APIKeyResponse`: the raw secret (returned exactly once) and the
absolute expiry. -/
structure APIKeyResponse where
  api_key : String
  expires_at : Option Int
deriving Repr, DecidableEq

/-- `select(func.count()).select_from(APIKey).where(owner_id == o,
is_active == True)`. -/
def active_key_count (keys : List APIKey) (owner : Nat) : Nat :=
  (keys.filter (fun k => k.owner_id == owner && k.is_active)).length

/-- `POST /keys/create` — `create_api_key` in `src/app/routers/api_keys.py`.
`raw_key` is the generated `sk_live_...` secret and `new_id` the fresh row
id; `now` models `datetime.utcnow()` inside `parse_expiry`. -/
def create_api_key (keys : List APIKey) (current_user : User)
    (key_data : APIKeyCreate) (raw_key : String) (new_id : Nat) (now : Int) :
    List APIKey × Except ApiErr APIKeyResponse :=
  if !current_user.is_active then (keys, .error .inactiveAccount)
  else if 5 ≤ active_key_count keys current_user.id then
    (keys, .error .quotaExceeded)
  else
    match parse_expiry key_data.expiry now with
    | .error e => (keys, .error e)
    | .ok expires_at =>
      let new_key : APIKey :=
        { id := new_id
          name := key_data.name
          owner_id := current_user.id
          permissions := some key_data.permissions
          expires_at := some expires_at
          is_active := true }
      (keys ++ [new_key], .ok { api_key := raw_key, expires_at := some expires_at })

/-- `POST /keys/revoke/{key_id}` — `revoke_api_key` in
`src/app/routers/api_keys.py` (the UUID-format check on the path parameter
is elided: `key_id` is already an id).  The row found by id and owner is
flipped inactive; `id` is the primary key, so the keyed map touches at most
that row. -/
def revoke_api_key (keys : List APIKey) (current_user : User) (key_id : Nat) :
    List APIKey × Except ApiErr Unit :=
  match keys.find? (fun k => k.id == key_id && k.owner_id == current_user.id) with
  | none => (keys, .error .keyNotFound)
  | some key =>
    if !key.is_active then (keys, .error .alreadyRevoked)
    else
      (keys.map (fun k =>
        if k.id == key.id then { k with is_active := false } else k),
       .ok ())

/-! ### Identity resolution (`src/app/routers/google_auth.py`,
`src/app/models.py`) -/

/-- Least-significant-first decimal digits of `n` (empty for `0`), fuelled:
`fuel` bounds the number of digits extracted, and the callers pass fuel 12,
enough for every value `secrets.randbelow(10**12)` can produce. -/
def decimalDigitsRev : Nat → Nat → List Nat
  | 0, _ => []
  | fuel + 1, n => if n = 0 then [] else n % 10 :: decimalDigitsRev fuel (n / 10)

/-- `Wallet.generate_wallet_number` (`src/app/models.py`): the Python
f-string `f"4{r:012d}"` for `r = secrets.randbelow(10**12)` — the digit `4`
followed by the decimal digits of `r` zero-padded to width 12.  `r` is the
random draw. -/
def generate_wallet_number (r : Nat) : String :=
  let ds := ((decimalDigitsRev 12 r).reverse).map (fun d => Char.ofNat (48 + d))
  String.mk ('4' :: (List.replicate (12 - ds.length) '0' ++ ds))

/-- The `users` and `wallets` tables as seen by the identity resolver. -/
structure IdentityState where
  users : List User
  wallets : List Wallet
deriving Repr, DecidableEq

/-- `select(User).where((User.google_id == google_id) | (User.email ==
email))` + `.scalars().first()`.  SQLAlchemy compiles `== google_id` to
`google_id IS NULL` when the bound value is `None` (matching every user row
whose nullable `google_id` column is NULL) and to `google_id = 'g'` for a
string (which a NULL column value never satisfies) — exactly `Option`
equality on both sides. -/
def findUserByGidOrEmail (users : List User) (google_id : Option String)
    (email : String) : Option User :=
  users.find? (fun u => u.google_id == google_id || u.email == email)

/-- Identity data returned by the callback (the JWT minting is elided). -/
structure ResolveData where
  user_id : Nat
deriving Repr, DecidableEq

/-- `GET /auth/google/callback` — the user-resolution tail of
`google_callback` in `src/app/routers/google_auth.py`, after the OAuth code
exchange has produced `(google_id, email, name, picture)`.  An existing user
(matched by Google id or email) has its profile fields refreshed.  Otherwise
a new user row is committed first, then a wallet row with a single
freshly-generated number is committed; a `wallet_number` uniqueness
collision makes that second commit raise, which the `except Exception`
handler turns into a 500 — the already-committed user row persists and no
wallet row is created (there is no regeneration loop).  `new_user_id` and
`new_wallet_id` are the fresh row ids, `r` the random draw of
`generate_wallet_number`. -/
def google_callback_resolve (s : IdentityState) (google_id : Option String)
    (email name picture : String) (new_user_id new_wallet_id : Nat)
    (r : Nat) : IdentityState × Except ApiErr ResolveData :=
  match findUserByGidOrEmail s.users google_id email with
  | some existing_user =>
    let users' := s.users.map (fun u =>
      if u.id == existing_user.id then
        { u with google_id := google_id, name := name, picture := picture }
      else u)
    ({ s with users := users' }, .ok { user_id := existing_user.id })
  | none =>
    let user : User :=
      { id := new_user_id
        email := email
        name := name
        picture := picture
        google_id := google_id
        is_active := true }
    let users' := s.users ++ [user]
    let wn := generate_wallet_number r
    if s.wallets.any (fun w => w.wallet_number == wn) then
      ({ users := users', wallets := s.wallets }, .error .databaseError)
    else
      let wallet : Wallet :=
        { id := new_wallet_id
          user_id := new_user_id
          wallet_number := wn
          balance := 0 }
      ({ users := users', wallets := s.wallets ++ [wallet] },
       .ok { user_id := new_user_id })

/-! ### Reachable ledger states -/

/-- One ledger-mutating request.  The carried arguments are the data a
request supplies after the authentication/validation boundary: pydantic
constraints on them are captured by `Op.valid` below. -/
inductive Op where
  /-- `POST /wallet/deposit` with converted kobo amount, generated
  reference, and the outcome of the external Paystack call. -/
  | deposit (uid : Nat) (amountKobo : Int) (ref : String) (paystackOk : Bool)
  /-- `POST /wallet/paystack/webhook` (already signature-verified). -/
  | webhook (event : String) (reference : Option String)
      (paid_at_field : Option (Option Int)) (now : Int)
  /-- `POST /wallet/transfer`. -/
  | transfer (uid : Nat) (req : WalletTransferRequest) (ref : String) (now : Int)
deriving Repr, DecidableEq

/-- The pydantic boundary: `WalletDepositRequest` guarantees the converted
kobo amount is at least 100 (its validator rejects Naira amounts below 1.00
and multiplies by 100), and `WalletTransferRequest` carries `ge=100` and an
exactly-13-character wallet number.  Webhook payloads are unconstrained. -/
def Op.valid : Op → Bool
  | .deposit _ amountKobo _ _ => 100 ≤ amountKobo
  | .webhook _ _ _ _ => true
  | .transfer _ req _ _ => req.valid

/-- The state transition a request performs (errors leave the state as the
handlers return it — unchanged). -/
def applyOp (s : LedgerState) : Op → LedgerState
  | .deposit uid amountKobo ref pok => (initiate_deposit s uid amountKobo ref pok).1
  | .webhook event reference paid_at_field now =>
    (paystack_webhook s event reference paid_at_field now).1
  | .transfer uid req ref now => (transfer_funds s uid req ref now).1

/-! ### Generic list helpers -/

/-- `find?` commutes with a map that does not disturb the predicate. -/
theorem find?_map_comm {α : Type} (g : α → α) (p : α → Bool)
    (hp : ∀ a, p (g a) = p a) :
    ∀ l : List α, (l.map g).find? p = (l.find? p).map g
  | [] => rfl
  | a :: l => by
    by_cases h : p a = true
    · rw [List.map_cons, List.find?_cons_of_pos _ (by rw [hp a]; exact h),
          List.find?_cons_of_pos _ h, Option.map_some']
    · rw [List.map_cons, List.find?_cons_of_neg _ (by rw [hp a]; exact h),
          List.find?_cons_of_neg _ h, find?_map_comm g p hp l]

/-- On a list whose key column is duplicate-free, looking up a member by its
own key finds exactly that member. -/
theorem find?_key_of_mem {α κ : Type} [BEq κ] [LawfulBEq κ] (f : α → κ) :
    ∀ (l : List α), (l.map f).Nodup → ∀ a ∈ l,
      l.find? (fun x => f x == f a) = some a
  | [], _, a, ha => absurd ha (List.not_mem_nil a)
  | b :: l, hnd, a, ha => by
    have hnd' : f b ∉ l.map f ∧ (l.map f).Nodup := by
      rw [List.map_cons, List.nodup_cons] at hnd
      exact hnd
    rcases List.mem_cons.mp ha with rfl | hmem
    · exact List.find?_cons_of_pos _ (by simp)
    · have hne : (f b == f a) = false := by
        refine beq_eq_false_iff_ne.mpr (fun he => hnd'.1 ?_)
        exact he ▸ List.mem_map_of_mem f hmem
      rw [List.find?_cons_of_neg _ (by simp [hne])]
      exact find?_key_of_mem f l hnd'.2 a hmem

/-- Two members of a list with the same key are equal when the key column is
duplicate-free. -/
theorem eq_of_mem_key {α κ : Type} (f : α → κ) {l : List α}
    (hnd : (l.map f).Nodup) {a b : α} (ha : a ∈ l) (hb : b ∈ l)
    (h : f a = f b) : a = b :=
  List.inj_on_of_nodup_map hnd ha hb h

/-- Row updates keyed on a primary key leave the key column unchanged. -/
theorem credit_wallet_id (wid : Option Nat) (amount : Int) (w : Wallet) :
    (credit_wallet wid amount w).id = w.id := by
  unfold credit_wallet
  split <;> rfl

theorem credit_wallet_of_ne {wid : Option Nat} {amount : Int} {w : Wallet}
    (h : some w.id ≠ wid) : credit_wallet wid amount w = w := by
  simp [credit_wallet, h]

theorem transfer_update_id (si ri : Nat) (amount : Int) (w : Wallet) :
    (transfer_update si ri amount w).id = w.id := by
  unfold transfer_update
  split
  · rfl
  · split <;> rfl

theorem mark_success_reference (ref : String) (pa : Option Int) (t : Txn) :
    (mark_success ref pa t).reference = t.reference := by
  unfold mark_success
  split <;> rfl

theorem mark_success_amount (ref : String) (pa : Option Int) (t : Txn) :
    (mark_success ref pa t).amount = t.amount := by
  unfold mark_success
  split <;> rfl

theorem mark_failed_reference (ref : String) (t : Txn) :
    (mark_failed ref t).reference = t.reference := by
  unfold mark_failed
  split <;> rfl

theorem mark_failed_amount (ref : String) (t : Txn) :
    (mark_failed ref t).amount = t.amount := by
  unfold mark_failed
  split <;> rfl

/-- `findWalletById` is unaffected in its search by a balance update. -/
theorem findWalletById_map_credit (ws : List Wallet) (wid : Option Nat)
    (amount : Int) (i : Nat) :
    findWalletById (ws.map (credit_wallet wid amount)) i
      = (findWalletById ws i).map (credit_wallet wid amount) :=
  find?_map_comm _ _ (fun a => by rw [credit_wallet_id]) ws

theorem findWalletById_map_transfer (ws : List Wallet) (si ri : Nat)
    (amount : Int) (i : Nat) :
    findWalletById (ws.map (transfer_update si ri amount)) i
      = (findWalletById ws i).map (transfer_update si ri amount) :=
  find?_map_comm _ _ (fun a => by rw [transfer_update_id]) ws

theorem findTxnByRef_map_success (ts : List Txn) (ref : String)
    (pa : Option Int) (r : String) :
    findTxnByRef (ts.map (mark_success ref pa)) r
      = (findTxnByRef ts r).map (mark_success ref pa) :=
  find?_map_comm _ _ (fun a => by rw [mark_success_reference]) ts

theorem findTxnByRef_map_failed (ts : List Txn) (ref : String) (r : String) :
    findTxnByRef (ts.map (mark_failed ref)) r
      = (findTxnByRef ts r).map (mark_failed ref) :=
  find?_map_comm _ _ (fun a => by rw [mark_failed_reference]) ts

/-! ### Branch equations for `paystack_webhook` -/

theorem paystack_webhook_noRef (s : LedgerState) (event : String)
    (p : Option (Option Int)) (now : Int) :
    paystack_webhook s event none p now = (s, .error .missingReference) := rfl

theorem paystack_webhook_noTxn {s : LedgerState} {event ref : String}
    {p : Option (Option Int)} {now : Int}
    (ht : findTxnByRef s.txns ref = none) :
    paystack_webhook s event (some ref) p now = (s, .ok { status := true }) := by
  simp [paystack_webhook, ht]

theorem paystack_webhook_alreadySuccess {s : LedgerState} {event ref : String}
    {p : Option (Option Int)} {now : Int} {txn : Txn}
    (ht : findTxnByRef s.txns ref = some txn) (hs : txn.status = "success") :
    paystack_webhook s event (some ref) p now = (s, .ok { status := true }) := by
  simp [paystack_webhook, ht, hs]

theorem paystack_webhook_noWallet {s : LedgerState} {ref : String}
    {p : Option (Option Int)} {now : Int} {txn : Txn}
    (ht : findTxnByRef s.txns ref = some txn) (hs : txn.status ≠ "success")
    (hw : findWalletOpt s.wallets txn.wallet_id = none) :
    paystack_webhook s "charge.success" (some ref) p now
      = (s, .ok { status := true }) := by
  simp [paystack_webhook, ht, hw, hs]

theorem paystack_webhook_credit {s : LedgerState} {ref : String}
    {p : Option (Option Int)} {now : Int} {txn : Txn} {w : Wallet}
    (ht : findTxnByRef s.txns ref = some txn) (hs : txn.status ≠ "success")
    (hw : findWalletOpt s.wallets txn.wallet_id = some w) :
    paystack_webhook s "charge.success" (some ref) p now
      = ({ wallets := s.wallets.map (credit_wallet txn.wallet_id txn.amount),
           txns := s.txns.map (mark_success ref (compute_paid_at p now)) },
         .ok { status := true }) := by
  simp [paystack_webhook, ht, hw, hs]

theorem paystack_webhook_chargeFailed {s : LedgerState} {ref : String}
    {p : Option (Option Int)} {now : Int} {txn : Txn}
    (ht : findTxnByRef s.txns ref = some txn) (hs : txn.status ≠ "success") :
    paystack_webhook s "charge.failed" (some ref) p now
      = ({ s with txns := s.txns.map (mark_failed ref) },
         .ok { status := true }) := by
  simp [paystack_webhook, ht, hs]

theorem paystack_webhook_otherEvent {s : LedgerState} {event ref : String}
    {p : Option (Option Int)} {now : Int} {txn : Txn}
    (ht : findTxnByRef s.txns ref = some txn) (hs : txn.status ≠ "success")
    (h1 : event ≠ "charge.success") (h2 : event ≠ "charge.failed") :
    paystack_webhook s event (some ref) p now = (s, .ok { status := true }) := by
  simp [paystack_webhook, ht, hs, h1, h2]

/-! ### Branch equations for `transfer_funds` -/

theorem transfer_funds_noSender {s : LedgerState} {uid : Nat}
    {req : WalletTransferRequest} {ref : String} {now : Int}
    (h : findWalletByUser s.wallets uid = none) :
    transfer_funds s uid req ref now = (s, .error .walletNotFound) := by
  simp [transfer_funds, h]

theorem transfer_funds_insufficient {s : LedgerState} {uid : Nat}
    {req : WalletTransferRequest} {ref : String} {now : Int}
    {sender_wallet : Wallet}
    (h : findWalletByUser s.wallets uid = some sender_wallet)
    (hlt : sender_wallet.balance < req.amount) :
    transfer_funds s uid req ref now = (s, .error .insufficientBalance) := by
  simp [transfer_funds, h, hlt]

theorem transfer_funds_noRecipient {s : LedgerState} {uid : Nat}
    {req : WalletTransferRequest} {ref : String} {now : Int}
    {sender_wallet : Wallet}
    (h : findWalletByUser s.wallets uid = some sender_wallet)
    (hge : ¬sender_wallet.balance < req.amount)
    (hr : findWalletByNumber s.wallets req.wallet_number = none) :
    transfer_funds s uid req ref now = (s, .error .recipientNotFound) := by
  simp [transfer_funds, h, hge, hr]

theorem transfer_funds_self {s : LedgerState} {uid : Nat}
    {req : WalletTransferRequest} {ref : String} {now : Int}
    {sender_wallet recipient_wallet : Wallet}
    (h : findWalletByUser s.wallets uid = some sender_wallet)
    (hge : ¬sender_wallet.balance < req.amount)
    (hr : findWalletByNumber s.wallets req.wallet_number = some recipient_wallet)
    (heq : sender_wallet.id = recipient_wallet.id) :
    transfer_funds s uid req ref now = (s, .error .selfTransfer) := by
  simp [transfer_funds, h, hge, hr, heq]

theorem transfer_funds_success {s : LedgerState} {uid : Nat}
    {req : WalletTransferRequest} {ref : String} {now : Int}
    {sender_wallet recipient_wallet : Wallet}
    (h : findWalletByUser s.wallets uid = some sender_wallet)
    (hge : ¬sender_wallet.balance < req.amount)
    (hr : findWalletByNumber s.wallets req.wallet_number = some recipient_wallet)
    (hne : sender_wallet.id ≠ recipient_wallet.id) :
    transfer_funds s uid req ref now
      = ({ wallets := s.wallets.map
             (transfer_update sender_wallet.id recipient_wallet.id req.amount),
           txns := s.txns ++ [{ reference := ref
                                user_id := uid
                                wallet_id := some sender_wallet.id
                                amount := req.amount
                                transaction_type := "transfer"
                                status := "success"
                                recipient_wallet_id := some recipient_wallet.id
                                paid_at := some now }] },
         .ok { reference := ref
               amount := req.amount
               recipient_wallet_number := req.wallet_number }) := by
  simp [transfer_funds, h, hge, hr, hne]

/-! ### The ledger invariant -/

/-- Invariant carried by every reachable ledger state: wallet primary keys
are unique (database primary-key constraint), balances are non-negative, and
every recorded transaction has a positive amount. -/
def LedgerInv (s : LedgerState) : Prop :=
  (s.wallets.map (·.id)).Nodup ∧ (∀ w ∈ s.wallets, 0 ≤ w.balance) ∧
    (∀ t ∈ s.txns, 0 < t.amount)

theorem initiate_deposit_inv {s : LedgerState} {uid : Nat} {amountKobo : Int}
    {ref : String} {pok : Bool} (h : LedgerInv s) (hv : 100 ≤ amountKobo) :
    LedgerInv (initiate_deposit s uid amountKobo ref pok).1 := by
  obtain ⟨hnd, hbal, hamt⟩ := h
  unfold initiate_deposit
  cases hfw : findWalletByUser s.wallets uid with
  | none => exact ⟨hnd, hbal, hamt⟩
  | some wallet =>
    cases pok with
    | false => exact ⟨hnd, hbal, hamt⟩
    | true =>
      refine ⟨hnd, hbal, ?_⟩
      intro t ht
      rcases List.mem_append.mp ht with ht | ht
      · exact hamt t ht
      · have := List.mem_singleton.mp ht
        subst this
        simpa using lt_of_lt_of_le (by norm_num) hv

theorem paystack_webhook_inv {s : LedgerState} {event : String}
    {reference : Option String} {p : Option (Option Int)} {now : Int}
    (h : LedgerInv s) :
    LedgerInv (paystack_webhook s event reference p now).1 := by
  obtain ⟨hnd, hbal, hamt⟩ := h
  cases reference with
  | none => exact ⟨hnd, hbal, hamt⟩
  | some ref =>
    cases ht : findTxnByRef s.txns ref with
    | none =>
      rw [paystack_webhook_noTxn ht]
      exact ⟨hnd, hbal, hamt⟩
    | some txn =>
      by_cases hs : txn.status = "success"
      · rw [paystack_webhook_alreadySuccess ht hs]
        exact ⟨hnd, hbal, hamt⟩
      · have htxn_mem : txn ∈ s.txns := List.mem_of_find?_eq_some ht
        have htxn_pos : 0 < txn.amount := hamt txn htxn_mem
        by_cases he1 : event = "charge.success"
        · subst he1
          cases hw : findWalletOpt s.wallets txn.wallet_id with
          | none =>
            rw [paystack_webhook_noWallet ht hs hw]
            exact ⟨hnd, hbal, hamt⟩
          | some w =>
            rw [paystack_webhook_credit ht hs hw]
            refine ⟨?_, ?_, ?_⟩
            · rw [List.map_map]
              have hcomp : ((fun x : Wallet => x.id) ∘
                    credit_wallet txn.wallet_id txn.amount)
                  = fun x : Wallet =>
                      (credit_wallet txn.wallet_id txn.amount x).id := rfl
              rw [hcomp, List.map_congr_left
                (fun x _ => credit_wallet_id txn.wallet_id txn.amount x)]
              exact hnd
            · intro w' hw'
              rcases List.mem_map.mp hw' with ⟨w0, hw0, rfl⟩
              have h0 := hbal w0 hw0
              unfold credit_wallet
              split <;> simp <;> omega
            · intro t' ht'
              rcases List.mem_map.mp ht' with ⟨t0, ht0, rfl⟩
              have h0 := hamt t0 ht0
              rw [mark_success_amount]
              exact h0
        · by_cases he2 : event = "charge.failed"
          · subst he2
            rw [paystack_webhook_chargeFailed ht hs]
            refine ⟨hnd, hbal, ?_⟩
            intro t' ht'
            rcases List.mem_map.mp ht' with ⟨t0, ht0, rfl⟩
            have h0 := hamt t0 ht0
            rw [mark_failed_amount]
            exact h0
          · rw [paystack_webhook_otherEvent ht hs he1 he2]
            exact ⟨hnd, hbal, hamt⟩

theorem transfer_funds_inv {s : LedgerState} {uid : Nat}
    {req : WalletTransferRequest} {ref : String} {now : Int}
    (h : LedgerInv s) (hv : req.valid = true) :
    LedgerInv (transfer_funds s uid req ref now).1 := by
  obtain ⟨hnd, hbal, hamt⟩ := h
  have hamt100 : (100 : Int) ≤ req.amount := by
    have hv' : req.wallet_number.length = 13 ∧ 100 ≤ req.amount := by
      simpa [WalletTransferRequest.valid] using hv
    exact hv'.2
  cases hfs : findWalletByUser s.wallets uid with
  | none =>
    rw [transfer_funds_noSender hfs]
    exact ⟨hnd, hbal, hamt⟩
  | some sender =>
    by_cases hlt : sender.balance < req.amount
    · rw [transfer_funds_insufficient hfs hlt]
      exact ⟨hnd, hbal, hamt⟩
    · cases hfr : findWalletByNumber s.wallets req.wallet_number with
      | none =>
        rw [transfer_funds_noRecipient hfs hlt hfr]
        exact ⟨hnd, hbal, hamt⟩
      | some recipient =>
        by_cases heq : sender.id = recipient.id
        · rw [transfer_funds_self hfs hlt hfr heq]
          exact ⟨hnd, hbal, hamt⟩
        · rw [transfer_funds_success hfs hlt hfr heq]
          have hsender_mem : sender ∈ s.wallets := List.mem_of_find?_eq_some hfs
          refine ⟨?_, ?_, ?_⟩
          · rw [List.map_map]
            have hcomp : ((fun x : Wallet => x.id) ∘
                  transfer_update sender.id recipient.id req.amount)
                = fun x : Wallet =>
                    (transfer_update sender.id recipient.id req.amount x).id := rfl
            rw [hcomp, List.map_congr_left
              (fun x _ => transfer_update_id sender.id recipient.id req.amount x)]
            exact hnd
          · intro w' hw'
            rcases List.mem_map.mp hw' with ⟨w0, hw0, rfl⟩
            have h0 := hbal w0 hw0
            by_cases h1 : w0.id = sender.id
            · have hws : w0 = sender :=
                eq_of_mem_key (fun w => w.id) hnd hw0 hsender_mem h1
              subst hws
              simp [transfer_update]
              omega
            · by_cases h2 : w0.id = recipient.id <;>
                simp [transfer_update, h1, h2, Ne.symm heq] <;> omega
          · intro t' ht'
            rcases List.mem_append.mp ht' with ht' | ht'
            · exact hamt t' ht'
            · have := List.mem_singleton.mp ht'
              subst this
              simpa using lt_of_lt_of_le (by norm_num) hamt100

/-- One valid request preserves the ledger invariant. -/
theorem applyOp_inv {s : LedgerState} {op : Op} (h : LedgerInv s)
    (hv : op.valid = true) : LedgerInv (applyOp s op) := by
  cases op with
  | deposit uid amountKobo ref pok =>
    exact initiate_deposit_inv h (of_decide_eq_true (by simpa [Op.valid] using hv))
  | webhook event reference p now => exact paystack_webhook_inv h
  | transfer uid req ref now =>
    exact transfer_funds_inv h (by simpa [Op.valid] using hv)

/-- The invariant holds along any sequence of valid requests. -/
theorem ledgerInv_foldl :
    ∀ (ops : List Op) (s : LedgerState), LedgerInv s →
      (∀ op ∈ ops, op.valid = true) → LedgerInv (ops.foldl applyOp s)
  | [], s, h, _ => h
  | op :: ops, s, h, hv => by
    rw [List.foldl_cons]
    exact ledgerInv_foldl ops (applyOp s op)
      (applyOp_inv h (hv op (List.mem_cons_self op ops)))
      (fun o ho => hv o (List.mem_cons_of_mem op ho))

/-! ### Claim C4 — non-negativity of reachable balances -/

/-- C4: In every state reachable by any sequence of the ledger operations
(deposit initiation, webhook confirmation, transfer) starting from wallets
with non-negative balances (no transactions yet, and unique wallet primary
keys, as the database enforces), every wallet balance is ≥ 0. -/
theorem ledger_balances_nonneg (ops : List Op) (ws : List Wallet)
    (hnd : (ws.map (·.id)).Nodup) (h0 : ∀ w ∈ ws, 0 ≤ w.balance)
    (hv : ∀ op ∈ ops, op.valid = true) :
    ∀ w ∈ (ops.foldl applyOp { wallets := ws, txns := [] }).wallets,
      0 ≤ w.balance :=
  (ledgerInv_foldl ops { wallets := ws, txns := [] }
      ⟨hnd, h0, fun t ht => absurd ht (List.not_mem_nil t)⟩ hv).2.1

theorem ledger_balances_nonneg_witness :
    (([Op.deposit 1 500 "r1" true,
       Op.webhook "charge.success" (some "r1") none 0,
       Op.transfer 1 { wallet_number := "4000000000002", amount := 100 } "r2" 7
      ].foldl applyOp
        { wallets :=
            [{ id := 1, user_id := 1, wallet_number := "4000000000001", balance := 0 },
             { id := 2, user_id := 2, wallet_number := "4000000000002", balance := 0 }],
          txns := [] }).wallets.all (fun w => decide (0 ≤ w.balance))) = true := by
  have h := ledger_balances_nonneg
    [Op.deposit 1 500 "r1" true,
     Op.webhook "charge.success" (some "r1") none 0,
     Op.transfer 1 { wallet_number := "4000000000002", amount := 100 } "r2" 7]
    [{ id := 1, user_id := 1, wallet_number := "4000000000001", balance := 0 },
     { id := 2, user_id := 2, wallet_number := "4000000000002", balance := 0 }]
    (by decide) (by decide) (by decide)
  exact List.all_eq_true.mpr (fun w hw => decide_eq_true (h w hw))

/-! ### Claim C3 — conservation of a successful transfer -/

/-- C3: For every successful transfer of amount A between two distinct
wallets, the sender's balance decreases by exactly A, the recipient's
balance increases by exactly A, and the sum of the two balances is
unchanged. -/
theorem transfer_conservation (s : LedgerState) (uid : Nat)
    (req : WalletTransferRequest) (ref : String) (now : Int)
    (sender recipient : Wallet)
    (hnd : (s.wallets.map (·.id)).Nodup)
    (hfs : findWalletByUser s.wallets uid = some sender)
    (hge : ¬sender.balance < req.amount)
    (hfr : findWalletByNumber s.wallets req.wallet_number = some recipient)
    (hne : sender.id ≠ recipient.id) :
    (transfer_funds s uid req ref now).2
        = .ok { reference := ref, amount := req.amount,
                recipient_wallet_number := req.wallet_number } ∧
    findWalletById (transfer_funds s uid req ref now).1.wallets sender.id
        = some { sender with balance := sender.balance - req.amount } ∧
    findWalletById (transfer_funds s uid req ref now).1.wallets recipient.id
        = some { recipient with balance := recipient.balance + req.amount } ∧
    (sender.balance - req.amount) + (recipient.balance + req.amount)
        = sender.balance + recipient.balance := by
  have hsm : sender ∈ s.wallets := List.mem_of_find?_eq_some hfs
  have hrm : recipient ∈ s.wallets := List.mem_of_find?_eq_some hfr
  rw [transfer_funds_success hfs hge hfr hne]
  dsimp only
  refine ⟨rfl, ?_, ?_, by ring⟩
  · have hfind : findWalletById s.wallets sender.id = some sender :=
      find?_key_of_mem (fun w : Wallet => w.id) s.wallets hnd sender hsm
    rw [findWalletById_map_transfer, hfind]
    simp [transfer_update]
  · have hfind : findWalletById s.wallets recipient.id = some recipient :=
      find?_key_of_mem (fun w : Wallet => w.id) s.wallets hnd recipient hrm
    rw [findWalletById_map_transfer, hfind]
    simp [transfer_update, Ne.symm hne]

theorem transfer_conservation_witness :
    (transfer_funds
        { wallets :=
            [{ id := 1, user_id := 1, wallet_number := "4000000000001", balance := 1000 },
             { id := 2, user_id := 2, wallet_number := "4000000000002", balance := 50 }],
          txns := [] }
        1 { wallet_number := "4000000000002", amount := 300 } "rT" 5).2
      = .ok { reference := "rT", amount := 300,
              recipient_wallet_number := "4000000000002" } ∧
    findWalletById
        (transfer_funds
          { wallets :=
              [{ id := 1, user_id := 1, wallet_number := "4000000000001", balance := 1000 },
               { id := 2, user_id := 2, wallet_number := "4000000000002", balance := 50 }],
            txns := [] }
          1 { wallet_number := "4000000000002", amount := 300 } "rT" 5).1.wallets 1
      = some { id := 1, user_id := 1, wallet_number := "4000000000001",
               balance := 1000 - 300 } ∧
    findWalletById
        (transfer_funds
          { wallets :=
              [{ id := 1, user_id := 1, wallet_number := "4000000000001", balance := 1000 },
               { id := 2, user_id := 2, wallet_number := "4000000000002", balance := 50 }],
            txns := [] }
          1 { wallet_number := "4000000000002", amount := 300 } "rT" 5).1.wallets 2
      = some { id := 2, user_id := 2, wallet_number := "4000000000002",
               balance := 50 + 300 } ∧
    ((1000 : Int) - 300) + (50 + 300) = 1000 + 50 :=
  transfer_conservation _ 1 _ "rT" 5
    { id := 1, user_id := 1, wallet_number := "4000000000001", balance := 1000 }
    { id := 2, user_id := 2, wallet_number := "4000000000002", balance := 50 }
    (by decide) (by decide) (by decide) (by decide) (by decide)

/-! ### Claim C5 — insufficient funds -/

/-- C5: For every transfer request whose amount exceeds the sender's
balance, the operation fails with the insufficient-balance error (HTTP 400)
and leaves the whole ledger state — in particular both wallets' balances and
the transaction table — unchanged. -/
theorem transfer_insufficient_no_change (s : LedgerState) (uid : Nat)
    (req : WalletTransferRequest) (ref : String) (now : Int) (sender : Wallet)
    (hfs : findWalletByUser s.wallets uid = some sender)
    (hlt : sender.balance < req.amount) :
    transfer_funds s uid req ref now = (s, .error .insufficientBalance) ∧
    (transfer_funds s uid req ref now).1.wallets = s.wallets ∧
    (transfer_funds s uid req ref now).1.txns = s.txns := by
  have h := @transfer_funds_insufficient s uid req ref now sender hfs hlt
  exact ⟨h, by rw [h], by rw [h]⟩

theorem transfer_insufficient_no_change_witness :
    transfer_funds
        { wallets :=
            [{ id := 1, user_id := 1, wallet_number := "4000000000001", balance := 1000 },
             { id := 2, user_id := 2, wallet_number := "4000000000002", balance := 0 }],
          txns := [] }
        1 { wallet_number := "4000000000002", amount := 1500 } "rT" 5
      = ({ wallets :=
             [{ id := 1, user_id := 1, wallet_number := "4000000000001", balance := 1000 },
              { id := 2, user_id := 2, wallet_number := "4000000000002", balance := 0 }],
           txns := [] }, .error .insufficientBalance) :=
  (transfer_insufficient_no_change _ 1 _ "rT" 5
    { id := 1, user_id := 1, wallet_number := "4000000000001", balance := 1000 }
    (by decide) (by decide)).1

/-! ### Claim C1 — idempotent deposit confirmation -/

/-- C1: Confirming a pending deposit credits its wallet once and marks the
transaction `success`; replaying the same `charge.success` webhook for the
same reference is accepted (`status: true`) and changes neither the wallet
balance nor the transaction — the wallet is credited exactly once across the
two calls. -/
theorem confirm_deposit_idempotent (s : LedgerState) (ref : String) (t : Txn)
    (wid : Nat) (w : Wallet) (p p' : Option (Option Int)) (now now' : Int)
    (ht : findTxnByRef s.txns ref = some t) (hst : t.status = "pending")
    (hwid : t.wallet_id = some wid)
    (hw : findWalletById s.wallets wid = some w) :
    (paystack_webhook s "charge.success" (some ref) p now).2
        = .ok { status := true } ∧
    findWalletById
        (paystack_webhook s "charge.success" (some ref) p now).1.wallets wid
        = some { w with balance := w.balance + t.amount } ∧
    paystack_webhook (paystack_webhook s "charge.success" (some ref) p now).1
        "charge.success" (some ref) p' now'
      = ((paystack_webhook s "charge.success" (some ref) p now).1,
         .ok { status := true }) := by
  have hs : t.status ≠ "success" := by
    rw [hst]
    decide
  have hwo : findWalletOpt s.wallets t.wallet_id = some w := by
    rw [hwid]
    exact hw
  have hwidw : w.id = wid := by simpa using List.find?_some hw
  have htr : t.reference = ref := by simpa using List.find?_some ht
  rw [paystack_webhook_credit ht hs hwo]
  dsimp only
  refine ⟨rfl, ?_, ?_⟩
  · rw [findWalletById_map_credit, hw]
    simp [credit_wallet, hwid, hwidw]
  · have ht2 : findTxnByRef
        (s.txns.map (mark_success ref (compute_paid_at p now))) ref
        = some (mark_success ref (compute_paid_at p now) t) := by
      rw [findTxnByRef_map_success, ht]
      rfl
    have hms : (mark_success ref (compute_paid_at p now) t).status
        = "success" := by
      simp [mark_success, htr]
    exact paystack_webhook_alreadySuccess ht2 hms

theorem confirm_deposit_idempotent_witness :
    ((paystack_webhook
        { wallets :=
            [{ id := 1, user_id := 1, wallet_number := "4000000000001", balance := 0 }],
          txns :=
            [{ reference := "r1", user_id := 1, wallet_id := some 1,
               amount := 500, transaction_type := "deposit",
               status := "pending", recipient_wallet_id := none,
               paid_at := none }] }
        "charge.success" (some "r1") none 42).2 = .ok { status := true }) ∧
    findWalletById
        (paystack_webhook
          { wallets :=
              [{ id := 1, user_id := 1, wallet_number := "4000000000001", balance := 0 }],
            txns :=
              [{ reference := "r1", user_id := 1, wallet_id := some 1,
                 amount := 500, transaction_type := "deposit",
                 status := "pending", recipient_wallet_id := none,
                 paid_at := none }] }
          "charge.success" (some "r1") none 42).1.wallets 1
      = some { id := 1, user_id := 1, wallet_number := "4000000000001",
               balance := 0 + 500 } ∧
    paystack_webhook
        (paystack_webhook
          { wallets :=
              [{ id := 1, user_id := 1, wallet_number := "4000000000001", balance := 0 }],
            txns :=
              [{ reference := "r1", user_id := 1, wallet_id := some 1,
                 amount := 500, transaction_type := "deposit",
                 status := "pending", recipient_wallet_id := none,
                 paid_at := none }] }
          "charge.success" (some "r1") none 42).1
        "charge.success" (some "r1") none 99
      = ((paystack_webhook
            { wallets :=
                [{ id := 1, user_id := 1, wallet_number := "4000000000001", balance := 0 }],
              txns :=
                [{ reference := "r1", user_id := 1, wallet_id := some 1,
                   amount := 500, transaction_type := "deposit",
                   status := "pending", recipient_wallet_id := none,
                   paid_at := none }] }
            "charge.success" (some "r1") none 42).1,
         .ok { status := true }) :=
  confirm_deposit_idempotent _ "r1"
    { reference := "r1", user_id := 1, wallet_id := some 1, amount := 500,
      transaction_type := "deposit", status := "pending",
      recipient_wallet_id := none, paid_at := none }
    1
    { id := 1, user_id := 1, wallet_number := "4000000000001", balance := 0 }
    none none 42 99 (by decide) (by decide) (by decide) (by decide)

/-! ### Claim C10 — accepted webhook with no matching wallet row -/

/-- C10: A signature-verified `charge.success` event whose reference matches
a pending deposit transaction whose `wallet_id` matches no wallet row leaves
the whole state unchanged (the transaction stays `pending`, no balance is
credited) and still returns acceptance (`status: true`). -/
theorem webhook_missing_wallet_accepts (s : LedgerState) (ref : String)
    (t : Txn) (p : Option (Option Int)) (now : Int)
    (ht : findTxnByRef s.txns ref = some t) (hst : t.status = "pending")
    (hw : findWalletOpt s.wallets t.wallet_id = none) :
    paystack_webhook s "charge.success" (some ref) p now
      = (s, .ok { status := true }) :=
  paystack_webhook_noWallet ht (by rw [hst]; decide) hw

theorem webhook_missing_wallet_accepts_witness :
    paystack_webhook
        { wallets := [],
          txns :=
            [{ reference := "r1", user_id := 1, wallet_id := some 9,
               amount := 500, transaction_type := "deposit",
               status := "pending", recipient_wallet_id := none,
               paid_at := none }] }
        "charge.success" (some "r1") none 42
      = ({ wallets := [],
           txns :=
             [{ reference := "r1", user_id := 1, wallet_id := some 9,
                amount := 500, transaction_type := "deposit",
                status := "pending", recipient_wallet_id := none,
                paid_at := none }] },
         .ok { status := true }) :=
  webhook_missing_wallet_accepts _ "r1"
    { reference := "r1", user_id := 1, wallet_id := some 9, amount := 500,
      transaction_type := "deposit", status := "pending",
      recipient_wallet_id := none, paid_at := none }
    none 42 (by decide) (by decide) (by decide)

/-! ### Claim C2 — terminal-state immutability (refuted and amended) -/

/-- C2 counterexample: the webhook's idempotency guard checks only for
status `"success"`.  A deposit transaction already in the terminal status
`"failed"` that receives a `charge.success` event is re-opened: the wallet
is credited and the status flips to `"success"`. -/
theorem webhook_failed_txn_recredited :
    paystack_webhook
        { wallets :=
            [{ id := 1, user_id := 1, wallet_number := "4000000000001", balance := 0 }],
          txns :=
            [{ reference := "r1", user_id := 1, wallet_id := some 1,
               amount := 500, transaction_type := "deposit",
               status := "failed", recipient_wallet_id := none,
               paid_at := none }] }
        "charge.success" (some "r1") none 42
      = ({ wallets :=
             [{ id := 1, user_id := 1, wallet_number := "4000000000001", balance := 500 }],
           txns :=
             [{ reference := "r1", user_id := 1, wallet_id := some 1,
                amount := 500, transaction_type := "deposit",
                status := "success", recipient_wallet_id := none,
                paid_at := some 42 }] },
         .ok { status := true }) := rfl

/-- C2 (amended): Only `"success"` is a guarded terminal status.  A
transaction already `"success"` is untouched by any event; a `"failed"`
transaction receiving `charge.failed` stays `"failed"` with wallets
untouched and the call accepted; but a `"failed"` transaction receiving
`charge.success` (with an existing wallet row) is credited and transitions
to `"success"`. -/
theorem webhook_terminal_behavior (s : LedgerState) (event ref : String)
    (t : Txn) (p : Option (Option Int)) (now : Int)
    (ht : findTxnByRef s.txns ref = some t) :
    (t.status = "success" →
      paystack_webhook s event (some ref) p now = (s, .ok { status := true })) ∧
    (t.status = "failed" →
      (paystack_webhook s "charge.failed" (some ref) p now).1.wallets
          = s.wallets ∧
      findTxnByRef
          (paystack_webhook s "charge.failed" (some ref) p now).1.txns ref
          = some t ∧
      (paystack_webhook s "charge.failed" (some ref) p now).2
          = .ok { status := true }) ∧
    (∀ w : Wallet, t.status = "failed" →
      findWalletOpt s.wallets t.wallet_id = some w →
      findTxnByRef
          (paystack_webhook s "charge.success" (some ref) p now).1.txns ref
          = some { t with
                   status := "success"
                   paid_at := compute_paid_at p now } ∧
      findWalletById
          (paystack_webhook s "charge.success" (some ref) p now).1.wallets w.id
          = some { w with balance := w.balance + t.amount }) := by
  have htr : t.reference = ref := by simpa using List.find?_some ht
  refine ⟨?_, ?_, ?_⟩
  · intro hsucc
    exact paystack_webhook_alreadySuccess ht hsucc
  · intro hfail
    have hs : t.status ≠ "success" := by
      rw [hfail]
      decide
    rw [paystack_webhook_chargeFailed ht hs]
    dsimp only
    refine ⟨rfl, ?_, rfl⟩
    rw [findTxnByRef_map_failed, ht]
    have : mark_failed ref t = t := by
      obtain ⟨a, b, c, d, e, st, g, h⟩ := t
      simp only [mark_failed]
      simp only at htr hfail
      simp [htr, hfail]
    rw [Option.map_some', this]
  · intro w hfail hw
    have hs : t.status ≠ "success" := by
      rw [hfail]
      decide
    cases hwid : t.wallet_id with
    | none => simp [findWalletOpt, hwid] at hw
    | some wid =>
      rw [hwid] at hw
      have hw' : findWalletById s.wallets wid = some w := hw
      have hwidw : w.id = wid := by simpa using List.find?_some hw'
      have hwo : findWalletOpt s.wallets t.wallet_id = some w := by
        rw [hwid]
        exact hw'
      rw [paystack_webhook_credit ht hs hwo]
      dsimp only
      constructor
      · rw [findTxnByRef_map_success, ht, Option.map_some']
        simp [mark_success, htr, hwid]
      · rw [findWalletById_map_credit, hwidw, hw']
        simp [credit_wallet, hwid, hwidw]

theorem webhook_terminal_behavior_witness :
    (paystack_webhook
        { wallets :=
            [{ id := 1, user_id := 1, wallet_number := "4000000000001", balance := 7 }],
          txns :=
            [{ reference := "r1", user_id := 1, wallet_id := some 1,
               amount := 500, transaction_type := "deposit",
               status := "failed", recipient_wallet_id := none,
               paid_at := none }] }
        "charge.failed" (some "r1") none 42).1.wallets
      = [{ id := 1, user_id := 1, wallet_number := "4000000000001", balance := 7 }] :=
  ((webhook_terminal_behavior
      { wallets :=
          [{ id := 1, user_id := 1, wallet_number := "4000000000001", balance := 7 }],
        txns :=
          [{ reference := "r1", user_id := 1, wallet_id := some 1,
             amount := 500, transaction_type := "deposit",
             status := "failed", recipient_wallet_id := none,
             paid_at := none }] }
      "charge.failed" "r1"
      { reference := "r1", user_id := 1, wallet_id := some 1, amount := 500,
        transaction_type := "deposit", status := "failed",
        recipient_wallet_id := none, paid_at := none }
      none 42 (by decide)).2.1 (by decide)).1

/-! ### Claim C7 — the permission gate -/

/-- C7: The permission gate authorizes an API-key principal exactly when the
required permission set is a subset of the key's scope set; otherwise it
fails with 403 reporting precisely the missing permissions; and a
JWT-authenticated principal (no API key) is always authorized, whatever the
required permissions. -/
theorem permission_gate_subset (required : List String) (k : APIKey) :
    require_permissions required none = .ok () ∧
    (require_permissions required (some k) = .ok ()
      ↔ ∀ perm ∈ required, perm ∈ k.permissions.getD []) ∧
    ((∃ perm ∈ required, perm ∉ k.permissions.getD []) →
      require_permissions required (some k)
        = .error (.forbiddenMissing (required.filter
            (fun perm => !(k.permissions.getD []).contains perm)))) := by
  have hfilter : (required.filter
        (fun perm => !(k.permissions.getD []).contains perm)) = []
      ↔ ∀ perm ∈ required, perm ∈ k.permissions.getD [] := by
    rw [List.filter_eq_nil_iff]
    constructor
    · intro h perm hp
      simpa using h perm hp
    · intro h perm hp
      simpa using h perm hp
  refine ⟨rfl, ?_, ?_⟩
  · unfold require_permissions
    by_cases hm : (required.filter
        (fun perm => !(k.permissions.getD []).contains perm)) = []
    · simp only [hm, List.isEmpty_nil, Bool.not_true, Bool.false_eq_true,
        if_false]
      exact iff_of_true trivial (hfilter.mp hm)
    · have hne : (required.filter
          (fun perm => !(k.permissions.getD []).contains perm)).isEmpty
          = false := List.isEmpty_eq_false.mpr hm
      simp only [hne, Bool.not_false, if_true]
      constructor
      · intro h
        cases h
      · intro hall
        exact absurd (hfilter.mpr hall) hm
  · rintro ⟨perm, hpm, hnotin⟩
    have hmem : perm ∈ required.filter
        (fun perm => !(k.permissions.getD []).contains perm) :=
      List.mem_filter.mpr ⟨hpm, by simpa using hnotin⟩
    have hne : (required.filter
        (fun perm => !(k.permissions.getD []).contains perm)).isEmpty
        = false :=
      List.isEmpty_eq_false.mpr (List.ne_nil_of_mem hmem)
    unfold require_permissions
    simp only [hne, Bool.not_false, if_true]

theorem permission_gate_subset_witness :
    require_permissions ["transfer"]
        (some { id := 1, name := "svc", owner_id := 1,
                permissions := some ["read"], expires_at := none,
                is_active := true })
      = .error (.forbiddenMissing ["transfer"]) :=
  (permission_gate_subset ["transfer"]
      { id := 1, name := "svc", owner_id := 1,
        permissions := some ["read"], expires_at := none,
        is_active := true }).2.2
    ⟨"transfer", by decide, by decide⟩

/-! ### Claim C8 — the active-key quota -/

/-- `revoke_api_key`'s row lookup by id and owner finds the member key when
key ids are unique. -/
theorem find?_key_owner_of_mem (u : Nat) :
    ∀ (keys : List APIKey) (k : APIKey), (keys.map (·.id)).Nodup →
      k ∈ keys → k.owner_id = u →
      keys.find? (fun x => x.id == k.id && x.owner_id == u) = some k
  | [], k, _, hk, _ => absurd hk (List.not_mem_nil k)
  | b :: l, k, hnd, hk, hko => by
    have hnd' : b.id ∉ l.map (·.id) ∧ (l.map (·.id)).Nodup := by
      rw [List.map_cons, List.nodup_cons] at hnd
      exact hnd
    rcases List.mem_cons.mp hk with rfl | hmem
    · exact List.find?_cons_of_pos _ (by simp [hko])
    · have hbk : b.id ≠ k.id :=
        fun he => hnd'.1 (he ▸ List.mem_map_of_mem _ hmem)
      rw [List.find?_cons_of_neg _ (by simp [hbk])]
      exact find?_key_owner_of_mem u l k hnd'.2 hmem hko

/-- Deactivating one active key of an owner decrements that owner's active
count by exactly one (key ids unique). -/
theorem active_count_deactivate (u : Nat) :
    ∀ (keys : List APIKey) (k : APIKey), (keys.map (·.id)).Nodup →
      k ∈ keys → k.owner_id = u → k.is_active = true →
      active_key_count (keys.map (fun x =>
        if x.id == k.id then { x with is_active := false } else x)) u + 1
        = active_key_count keys u
  | [], k, _, hk, _, _ => absurd hk (List.not_mem_nil k)
  | b :: l, k, hnd, hk, hko, hka => by
    have hnd' : b.id ∉ l.map (·.id) ∧ (l.map (·.id)).Nodup := by
      rw [List.map_cons, List.nodup_cons] at hnd
      exact hnd
    rcases List.mem_cons.mp hk with rfl | hmem
    · have hmap : l.map (fun x : APIKey =>
          if x.id == k.id then { x with is_active := false } else x) = l := by
        have h1 : ∀ x ∈ l, (if x.id == k.id then
            { x with is_active := false } else x) = id x := by
          intro x hx
          have hxb : x.id ≠ k.id :=
            fun he => hnd'.1 (he ▸ List.mem_map_of_mem _ hx)
          simp [hxb]
        rw [List.map_congr_left h1, List.map_id]
      simp only [List.map_cons]
      rw [hmap]
      simp [active_key_count, List.filter_cons, hko, hka]
    · have hbk : b.id ≠ k.id :=
        fun he => hnd'.1 (he ▸ List.mem_map_of_mem _ hmem)
      have hfb : (if b.id == k.id then { b with is_active := false } else b)
          = b := by
        simp [hbk]
      have ih := active_count_deactivate u l k hnd'.2 hmem hko hka
      simp only [active_key_count] at ih ⊢
      simp only [List.map_cons, hfb, List.filter_cons]
      by_cases hq : (b.owner_id == u && b.is_active) = true
      · rw [if_pos hq, if_pos hq]
        simp only [List.length_cons]
        omega
      · rw [if_neg hq, if_neg hq]
        omega

/-- Equation for a successful revocation. -/
theorem revoke_api_key_eq {keys : List APIKey} {user : User} {k : APIKey}
    (hnd : (keys.map (·.id)).Nodup) (hk : k ∈ keys)
    (hko : k.owner_id = user.id) (hka : k.is_active = true) :
    revoke_api_key keys user k.id
      = (keys.map (fun x =>
          if x.id == k.id then { x with is_active := false } else x),
         .ok ()) := by
  unfold revoke_api_key
  rw [find?_key_owner_of_mem user.id keys k hnd hk hko]
  simp [hka]

/-- C8: With the owner at the 5-active-key quota, a further create fails
with the quota error and leaves the key table unchanged; revoking one of the
active keys succeeds, drops the active count to 4, and a subsequent create
(with a valid expiry) succeeds, appending exactly one new active key. -/
theorem api_key_quota (keys : List APIKey) (user : User)
    (kd kd' : APIKeyCreate) (raw raw' : String) (nid nid' : Nat)
    (now now' : Int) (k : APIKey) (t : Int)
    (hnd : (keys.map (·.id)).Nodup)
    (hact : user.is_active = true)
    (h5 : active_key_count keys user.id = 5)
    (hk : k ∈ keys) (hko : k.owner_id = user.id) (hka : k.is_active = true)
    (hex : parse_expiry kd'.expiry now' = .ok t) :
    create_api_key keys user kd raw nid now = (keys, .error .quotaExceeded) ∧
    (revoke_api_key keys user k.id).2 = .ok () ∧
    active_key_count (revoke_api_key keys user k.id).1 user.id = 4 ∧
    create_api_key (revoke_api_key keys user k.id).1 user kd' raw' nid' now'
      = ((revoke_api_key keys user k.id).1 ++
          [{ id := nid'
             name := kd'.name
             owner_id := user.id
             permissions := some kd'.permissions
             expires_at := some t
             is_active := true }],
         .ok { api_key := raw', expires_at := some t }) := by
  have hrevoke := revoke_api_key_eq hnd hk hko hka
  have hcount : active_key_count (revoke_api_key keys user k.id).1 user.id
      = 4 := by
    rw [hrevoke]
    dsimp only
    have := active_count_deactivate user.id keys k hnd hk hko hka
    omega
  refine ⟨?_, by rw [hrevoke], hcount, ?_⟩
  · unfold create_api_key
    simp [hact, h5]
  · unfold create_api_key
    rw [hcount]
    simp only [hact, Bool.not_true, Bool.false_eq_true, if_false]
    rw [if_neg (by omega), hex]

theorem api_key_quota_witness :
    create_api_key
        [{ id := 1, name := "k1", owner_id := 1, permissions := some ["read"],
           expires_at := none, is_active := true },
         { id := 2, name := "k2", owner_id := 1, permissions := some ["read"],
           expires_at := none, is_active := true },
         { id := 3, name := "k3", owner_id := 1, permissions := some ["read"],
           expires_at := none, is_active := true },
         { id := 4, name := "k4", owner_id := 1, permissions := some ["read"],
           expires_at := none, is_active := true },
         { id := 5, name := "k5", owner_id := 1, permissions := some ["read"],
           expires_at := none, is_active := true }]
        { id := 1, email := "a@x.com", name := "A", picture := "",
          google_id := none, is_active := true }
        { name := "k6", permissions := ["read"], expiry := "1H" }
        "sk_live_new" 6 0
      = ([{ id := 1, name := "k1", owner_id := 1, permissions := some ["read"],
            expires_at := none, is_active := true },
          { id := 2, name := "k2", owner_id := 1, permissions := some ["read"],
            expires_at := none, is_active := true },
          { id := 3, name := "k3", owner_id := 1, permissions := some ["read"],
            expires_at := none, is_active := true },
          { id := 4, name := "k4", owner_id := 1, permissions := some ["read"],
            expires_at := none, is_active := true },
          { id := 5, name := "k5", owner_id := 1, permissions := some ["read"],
            expires_at := none, is_active := true }],
         .error .quotaExceeded) ∧
    active_key_count
        (revoke_api_key
          [{ id := 1, name := "k1", owner_id := 1, permissions := some ["read"],
             expires_at := none, is_active := true },
           { id := 2, name := "k2", owner_id := 1, permissions := some ["read"],
             expires_at := none, is_active := true },
           { id := 3, name := "k3", owner_id := 1, permissions := some ["read"],
             expires_at := none, is_active := true },
           { id := 4, name := "k4", owner_id := 1, permissions := some ["read"],
             expires_at := none, is_active := true },
           { id := 5, name := "k5", owner_id := 1, permissions := some ["read"],
             expires_at := none, is_active := true }]
          { id := 1, email := "a@x.com", name := "A", picture := "",
            google_id := none, is_active := true }
          5).1 1 = 4 ∧
    (create_api_key
        (revoke_api_key
          [{ id := 1, name := "k1", owner_id := 1, permissions := some ["read"],
             expires_at := none, is_active := true },
           { id := 2, name := "k2", owner_id := 1, permissions := some ["read"],
             expires_at := none, is_active := true },
           { id := 3, name := "k3", owner_id := 1, permissions := some ["read"],
             expires_at := none, is_active := true },
           { id := 4, name := "k4", owner_id := 1, permissions := some ["read"],
             expires_at := none, is_active := true },
           { id := 5, name := "k5", owner_id := 1, permissions := some ["read"],
             expires_at := none, is_active := true }]
          { id := 1, email := "a@x.com", name := "A", picture := "",
            google_id := none, is_active := true }
          5).1
        { id := 1, email := "a@x.com", name := "A", picture := "",
          google_id := none, is_active := true }
        { name := "k6", permissions := ["read"], expiry := "1H" }
        "sk_live_new2" 6 0).2
      = .ok { api_key := "sk_live_new2", expires_at := some 3600 } := by
  have h := api_key_quota
    [{ id := 1, name := "k1", owner_id := 1, permissions := some ["read"],
       expires_at := none, is_active := true },
     { id := 2, name := "k2", owner_id := 1, permissions := some ["read"],
       expires_at := none, is_active := true },
     { id := 3, name := "k3", owner_id := 1, permissions := some ["read"],
       expires_at := none, is_active := true },
     { id := 4, name := "k4", owner_id := 1, permissions := some ["read"],
       expires_at := none, is_active := true },
     { id := 5, name := "k5", owner_id := 1, permissions := some ["read"],
       expires_at := none, is_active := true }]
    { id := 1, email := "a@x.com", name := "A", picture := "",
      google_id := none, is_active := true }
    { name := "k6", permissions := ["read"], expiry := "1H" }
    { name := "k6", permissions := ["read"], expiry := "1H" }
    "sk_live_new" "sk_live_new2" 6 6 0 0
    { id := 5, name := "k5", owner_id := 1, permissions := some ["read"],
      expires_at := none, is_active := true }
    3600
    (by decide) (by decide) (by decide) (by decide) (by decide) (by decide)
    (by decide)
  exact ⟨h.1, h.2.2.1, by rw [h.2.2.2]⟩

/-! ### Claim C9 — `parse_expiry` (refuted on its rejection clause and
amended) -/

/-- C9 counterexample: the magnitude is parsed with Python `int()`, which
strips surrounding whitespace — so `"2 H"`, which is not a positive integer
immediately followed by a unit letter, is nevertheless accepted as two
hours instead of being rejected. -/
theorem parse_expiry_whitespace_accepted :
    parse_expiry "2 H" 0 = .ok 7200 := by decide

/-- C9 (amended): `parse_expiry` accepts exactly the strings of length ≥ 2
whose magnitude (all but the last character) parses under Python `int()`
semantics — optional surrounding whitespace, an optional sign, underscores
between digits — to a positive value, with a final unit character upper-cased
into `H`/`D`/`M`/`Y`, yielding `now` plus that many hours / days / 30-day
months / 365-day years; too-short strings, unparsable or non-positive
magnitudes are rejected with the format error, an unknown unit with the unit
error; and a rejected expiry aborts key creation with the key table
unchanged. -/
theorem parse_expiry_spec (s : String) (now : Int) :
    (s.toList.length < 2 → parse_expiry s now = .error .invalidExpiry) ∧
    (2 ≤ s.toList.length → pyIntL s.toList.dropLast = none →
      parse_expiry s now = .error .invalidExpiry) ∧
    (∀ n : Int, 2 ≤ s.toList.length → pyIntL s.toList.dropLast = some n →
      n ≤ 0 → parse_expiry s now = .error .invalidExpiry) ∧
    (∀ (n : Int) (u : Char), 2 ≤ s.toList.length →
      pyIntL s.toList.dropLast = some n → 0 < n →
      s.toList.getLast? = some u →
      (u.toUpper = 'H' → parse_expiry s now = .ok (now + n * 3600)) ∧
      (u.toUpper = 'D' → parse_expiry s now = .ok (now + n * 86400)) ∧
      (u.toUpper = 'M' → parse_expiry s now = .ok (now + n * 30 * 86400)) ∧
      (u.toUpper = 'Y' → parse_expiry s now = .ok (now + n * 365 * 86400)) ∧
      (u.toUpper ∉ (['H', 'D', 'M', 'Y'] : List Char) →
        parse_expiry s now = .error .invalidExpiryUnit)) ∧
    (∀ (keys : List APIKey) (user : User) (kd : APIKeyCreate) (raw : String)
      (nid : Nat) (e : ApiErr),
      (create_api_key keys user kd raw nid now).2 = .error e →
      (create_api_key keys user kd raw nid now).1 = keys) := by
  refine ⟨?_, ?_, ?_, ?_, ?_⟩
  · intro hlen
    have hlen' : s.length < 2 := hlen
    simp [parse_expiry, hlen']
  · intro hlen hnone
    have hlen' : 2 ≤ s.length := hlen
    have hnone' : pyIntL s.data.dropLast = none := hnone
    have hn2 : ¬s.length < 2 := by omega
    simp [parse_expiry, hn2, hnone']
  · intro n hlen hsome hle
    have hlen' : 2 ≤ s.length := hlen
    have hsome' : pyIntL s.data.dropLast = some n := hsome
    have hn2 : ¬s.length < 2 := by omega
    simp [parse_expiry, hn2, hsome', hle]
  · intro n u hlen hsome hpos hlast
    have hlen' : 2 ≤ s.length := hlen
    have hsome' : pyIntL s.data.dropLast = some n := hsome
    have hlast' : s.data.getLast? = some u := hlast
    have hn2 : ¬s.length < 2 := by omega
    have hnle : ¬n ≤ 0 := by omega
    refine ⟨?_, ?_, ?_, ?_, ?_⟩
    · intro hu
      simp [parse_expiry, hn2, hsome', hnle, hlast', hu]
    · intro hu
      simp [parse_expiry, hn2, hsome', hnle, hlast', hu]
    · intro hu
      simp [parse_expiry, hn2, hsome', hnle, hlast', hu]
    · intro hu
      simp [parse_expiry, hn2, hsome', hnle, hlast', hu]
    · intro hu
      have h1 : u.toUpper ≠ 'H' := fun h => hu (by simp [h])
      have h2 : u.toUpper ≠ 'D' := fun h => hu (by simp [h])
      have h3 : u.toUpper ≠ 'M' := fun h => hu (by simp [h])
      have h4 : u.toUpper ≠ 'Y' := fun h => hu (by simp [h])
      simp [parse_expiry, hn2, hsome', hnle, hlast', h1, h2, h3, h4]
  · intro keys user kd raw nid e
    unfold create_api_key
    split
    · intro _
      rfl
    · split
      · intro _
        rfl
      · split
        · intro _
          rfl
        · intro h
          simp at h

theorem parse_expiry_spec_witness :
    parse_expiry "2H" 0 = .ok 7200 :=
  ((parse_expiry_spec "2H" 0).2.2.2.1 2 'H' (by decide) (by decide)
    (by decide) (by decide)).1 (by decide)

/-! ### Claim C6 — wallet provisioning at identity resolution (refuted on
collision handling and amended) -/

theorem string_mk_length (l : List Char) : (String.mk l).length = l.length :=
  rfl

theorem decimalDigitsRev_length_le : ∀ (fuel n : Nat),
    (decimalDigitsRev fuel n).length ≤ fuel
  | 0, _ => Nat.le_refl 0
  | fuel + 1, n => by
    unfold decimalDigitsRev
    split
    · simp
    · simp only [List.length_cons]
      have := decimalDigitsRev_length_le fuel (n / 10)
      omega

theorem decimalDigitsRev_lt_ten : ∀ (fuel n : Nat),
    ∀ d ∈ decimalDigitsRev fuel n, d < 10
  | 0, _, d, hd => absurd hd (List.not_mem_nil d)
  | fuel + 1, n, d, hd => by
    unfold decimalDigitsRev at hd
    split at hd
    · cases hd
    · rcases List.mem_cons.mp hd with rfl | hd'
      · exact Nat.mod_lt n (by norm_num)
      · exact decimalDigitsRev_lt_ten fuel (n / 10) d hd'

/-- A generated wallet number is always 13 characters long. -/
theorem generate_wallet_number_length (r : Nat) :
    (generate_wallet_number r).length = 13 := by
  have h := decimalDigitsRev_length_le 12 r
  unfold generate_wallet_number
  simp only [string_mk_length, List.length_cons, List.length_append,
    List.length_replicate, List.length_map, List.length_reverse]
  omega

/-- Every character of a generated wallet number is a decimal digit. -/
theorem generate_wallet_number_digits (r : Nat) :
    ∀ c ∈ (generate_wallet_number r).toList, c.isDigit = true := by
  intro c hc
  have hc' : c ∈ ('4' :: (List.replicate
      (12 - ((decimalDigitsRev 12 r).reverse.map
        (fun d => Char.ofNat (48 + d))).length) '0'
      ++ (decimalDigitsRev 12 r).reverse.map
        (fun d => Char.ofNat (48 + d)))) := hc
  rcases List.mem_cons.mp hc' with rfl | hc2
  · decide
  · rcases List.mem_append.mp hc2 with hrep | hds
    · rw [List.eq_of_mem_replicate hrep]
      decide
    · rcases List.mem_map.mp hds with ⟨d, hd, rfl⟩
      have hd10 : d < 10 :=
        decimalDigitsRev_lt_ten 12 r d (List.mem_reverse.mp hd)
      interval_cases d <;> decide

/-- C6 counterexample: with an existing wallet whose number equals the one
freshly generated for a brand-new user, `google_callback` commits the user,
then fails the wallet commit with a 500: the number is not regenerated and
wallet creation is skipped — the new user is left with no wallet. -/
theorem wallet_collision_no_retry :
    google_callback_resolve
        { users := [{ id := 1, email := "a@x.com", name := "A", picture := "",
                      google_id := some "g1", is_active := true }],
          wallets := [{ id := 1, user_id := 1,
                        wallet_number := "4000000000000", balance := 77 }] }
        (some "g2") "b@y.com" "B" "" 2 2 0
      = ({ users := [{ id := 1, email := "a@x.com", name := "A", picture := "",
                       google_id := some "g1", is_active := true },
                     { id := 2, email := "b@y.com", name := "B", picture := "",
                       google_id := some "g2", is_active := true }],
           wallets := [{ id := 1, user_id := 1,
                         wallet_number := "4000000000000", balance := 77 }] },
         .error .databaseError) := by
  decide

/-- C6 (amended): When no user matches the external id or email, a User is
created and committed first; a Wallet with balance 0, owned by the new user
and carrying a freshly generated 13-digit wallet number, is then created in
a second commit — but only when the generated number collides with no
existing wallet.  On a collision the request fails with a 500: the number is
generated once and never regenerated, the already-committed user persists,
and no wallet is created for it. -/
theorem identity_resolution_wallet (s : IdentityState) (gid : Option String)
    (email name picture : String) (nuid nwid r : Nat)
    (hnew : findUserByGidOrEmail s.users gid email = none) :
    (s.wallets.any (fun w => w.wallet_number == generate_wallet_number r)
        = true →
      google_callback_resolve s gid email name picture nuid nwid r
        = ({ users := s.users ++
               [{ id := nuid, email := email, name := name,
                  picture := picture, google_id := gid, is_active := true }],
             wallets := s.wallets },
           .error .databaseError)) ∧
    (s.wallets.any (fun w => w.wallet_number == generate_wallet_number r)
        = false →
      google_callback_resolve s gid email name picture nuid nwid r
        = ({ users := s.users ++
               [{ id := nuid, email := email, name := name,
                  picture := picture, google_id := gid, is_active := true }],
             wallets := s.wallets ++
               [{ id := nwid, user_id := nuid,
                  wallet_number := generate_wallet_number r, balance := 0 }] },
           .ok { user_id := nuid })) ∧
    (generate_wallet_number r).length = 13 ∧
    (∀ c ∈ (generate_wallet_number r).toList, c.isDigit = true) := by
  refine ⟨?_, ?_, generate_wallet_number_length r,
    generate_wallet_number_digits r⟩
  · intro hcol
    simp [google_callback_resolve, hnew, hcol]
  · intro hcol
    simp [google_callback_resolve, hnew, hcol]

theorem identity_resolution_wallet_witness :
    google_callback_resolve { users := [], wallets := [] } (some "g1")
        "a@x.com" "A" "p" 1 1 5
      = ({ users := [{ id := 1, email := "a@x.com", name := "A",
                       picture := "p", google_id := some "g1",
                       is_active := true }],
           wallets := [{ id := 1, user_id := 1,
                         wallet_number := "4000000000005", balance := 0 }] },
         .ok { user_id := 1 }) :=
  (identity_resolution_wallet { users := [], wallets := [] } (some "g1")
      "a@x.com" "A" "p" 1 1 5 (by decide)).2.1 (by decide)
